import Mathlib

/-
Verification of the news-clip PDF summarization pipeline.

Shallow embedding of the Python sources:
  filename_parser.py  — FilenameParser.parse_filename / _format_date
  news_summarizer.py  — NewsArticleSummarizer.summarize_article
  model_config.py     — ModelConfig.get_actual_model
  app.py              — process_uploaded_files, display_html_report,
                        generate_download_html

External effects (LLM backend calls, PDF text extraction, the clock) are
modelled as explicit oracle parameters.  Machine-level details that the
claims do not touch (HTML text, Streamlit widgets) are elided; the data
and control flow of the embedded functions follow the source line by line.
-/

namespace NewsClip

/-! ### Python string primitives -/

/-- The `{` character (written via escape for tooling friendliness). -/
def lbrace : Char := '\x7b'

/-- The `}` character. -/
def rbrace : Char := '\x7d'

/-- Python `str.find(c)`: index of the first occurrence, `-1` if absent. -/
def pyFind (s : String) (c : Char) : Int :=
  match s.data.findIdx? (fun x => x == c) with
  | some i => (i : Int)
  | none => -1

/-- Python `str.rfind(c)`: index of the last occurrence, `-1` if absent. -/
def pyRFind (s : String) (c : Char) : Int :=
  match s.data.reverse.findIdx? (fun x => x == c) with
  | some i => ((s.length - 1 - i : Nat) : Int)
  | none => -1

/-- Normalize a Python slice endpoint against a string of length `n`
(negative indices count from the end; results are clamped to `[0, n]`). -/
def pySliceIdx (n : Nat) (i : Int) : Nat :=
  if i < 0 then (i + n).toNat else min i.toNat n

/-- Python `s[a:b]` (character slice with negative-index and clamping rules). -/
def pySlice (s : String) (a b : Int) : String :=
  let lo := pySliceIdx s.length a
  let hi := pySliceIdx s.length b
  String.mk ((s.data.drop lo).take (hi - lo))

/-- Final path component, as `pathlib.PurePosixPath(p).name`
(trailing slashes stripped, then everything after the last `/`). -/
def pathName (p : String) : String :=
  let trimmed := (p.data.reverse.dropWhile (fun c => c == '/')).reverse
  String.mk ((trimmed.reverse.takeWhile (fun c => !(c == '/'))).reverse)

/-- Index of the last occurrence of `c` in a character list. -/
def rlastIdx (cs : List Char) (c : Char) : Option Nat :=
  match cs.reverse.findIdx? (fun x => x == c) with
  | some i => some (cs.length - 1 - i)
  | none => none

/-- `pathlib.Path(filename).stem`: the final component with its suffix
removed; a leading dot or a trailing dot does not start a suffix. -/
def pathStem (filename : String) : String :=
  let nm := pathName filename
  let cs := nm.data
  match rlastIdx cs '.' with
  | some i => if 0 < i ∧ i < cs.length - 1 then String.mk (cs.take i) else nm
  | none => nm

/-- Split a character list on a separator character, Python
`str.split(sep)` semantics: the empty string yields one empty segment and
adjacent separators yield empty segments. -/
def splitOnChar (sep : Char) : List Char → List (List Char)
  | [] => [[]]
  | c :: rest =>
    let r := splitOnChar sep rest
    if c == sep then [] :: r
    else
      match r with
      | [] => [[c]]
      | g :: gs => (c :: g) :: gs

/-- Python `s.split('_')` as a list of strings. -/
def pySplitU (s : String) : List String :=
  (splitOnChar '_' s.data).map String.mk

/-- Python `'_'.join(parts)`. -/
def joinUnderscore : List String → String
  | [] => ""
  | [x] => x
  | x :: xs => x ++ "_" ++ joinUnderscore xs

/-! ### filename_parser.py -/

/-- `FilenameParser._format_date`: `"MMDD"` (four digits) becomes
`"MM/DD"`, anything else falls back to today's date (passed in as the
`today` parameter, already formatted `"MM/DD"`).  The `date_str.isdigit()`
test is modelled with the ASCII digit predicate; Python's `str.isdigit`
additionally accepts other Unicode digit characters (fullwidth,
Arabic-Indic, superscripts, …), on which the source would format the
segment while this model falls back.  No theorem below depends on the
predicate outside ASCII: C4's hypothesis restricts the segment to ASCII
digits (where the two predicates agree), and the C5 amendment asserts the
date fallback only where `str.isdigit` provably fails (wrong length, or an
ASCII non-digit present). -/
def formatDate (today : String) (ds : String) : String :=
  if ds.length = 4 ∧ ds.data.all Char.isDigit then
    String.mk (ds.data.take 2) ++ "/" ++ String.mk (ds.data.drop 2)
  else
    today

/-- The record built by `FilenameParser.parse_filename`.  Field names map
the Korean dict keys: `media` = 매체, `date` = 일자, `gsp` = GSP,
`title` = 제목, `origFilename` = 원본_파일명, `parseOk` = 파싱_성공. -/
structure ParsedFilename where
  media : String
  date : String
  gsp : String
  title : String
  origFilename : String
  parseOk : Bool
deriving DecidableEq, Repr

/-- `FilenameParser.parse_filename`.  The stem is split on `_`; with at
least four parts the first three become media/date/gsp and the rest are
re-joined as the title, otherwise the fallback record is produced.  The
source wraps the body in `try/except`, but every operation in the guarded
block is total (indexing is guarded by the length check and
`_format_date` catches internally), so the handler is unreachable and the
embedding omits it. -/
def parseFilename (today : String) (filename : String) : ParsedFilename :=
  let stem := pathStem filename
  let parts := pySplitU stem
  if parts.length ≥ 4 then
    { media := parts.getD 0 ""
      date := formatDate today (parts.getD 1 "")
      gsp := parts.getD 2 ""
      title := joinUnderscore (parts.drop 3)
      origFilename := filename
      parseOk := true }
  else
    { media := ""
      date := today
      gsp := "기타"
      title := stem
      origFilename := filename
      parseOk := false }

/-- Concrete filename used to exercise the malformed-date-segment path. -/
def badDateFile : String := "더벨_06a2_현대차_제목.pdf"

/-! ### JSON values and `json.loads`

`news_summarizer.py` calls `json.loads` on the brace-delimited slice of the
backend response.  The embedding implements the JSON grammar directly:
objects, arrays, strings with escapes, numbers (kept as their lexeme, so no
floating point is introduced), `true`/`false`/`null`, plus the
`NaN`/`Infinity` extensions that Python's `json` accepts by default.
Duplicate object keys follow `json.loads`: the last occurrence wins. -/

inductive JVal where
  | null
  | boolean (b : Bool)
  | num (lit : String)
  | str (s : String)
  | arr (elems : List JVal)
  | obj (fields : List (String × JVal))

/-- JSON whitespace. -/
def isJsonWs (c : Char) : Bool := c == ' ' || c == '\t' || c == '\n' || c == '\r'

/-- Skip JSON whitespace. -/
def skipWs (cs : List Char) : List Char := cs.dropWhile isJsonWs

/-- Value of a hexadecimal digit. -/
def hexVal (c : Char) : Option Nat :=
  if '0' ≤ c ∧ c ≤ '9' then some (c.toNat - 48)
  else if 'a' ≤ c ∧ c ≤ 'f' then some (c.toNat - 87)
  else if 'A' ≤ c ∧ c ≤ 'F' then some (c.toNat - 55)
  else none

/-- Stand-in for a lone UTF-16 surrogate code unit.  `json.loads` accepts
a lone `\uXXXX` surrogate half and keeps the surrogate code unit in the
decoded `str`; a Lean `Char` can only hold Unicode scalar values, so the
model represents such a code unit by U+FFFD.  Parse success/failure is
unaffected, and no claim depends on the identity of these characters. -/
def loneSurrogateStandIn : Char := '�'

/-- Parse the body of a JSON string after the opening quote, strict mode:
raw control characters are rejected and the usual escapes are decoded.
A high-surrogate `\uXXXX` escape immediately followed by a low-surrogate
escape is combined into the astral character (the standard `json.dumps`
encoding); an unpaired surrogate half is kept (as `json.loads` does),
represented by `loneSurrogateStandIn`. -/
def parseStrBody : Nat → List Char → List Char → Option (String × List Char)
  | 0, _, _ => none
  | _ + 1, _, [] => none
  | fuel + 1, acc, c :: cs =>
    if c == '"' then some (String.mk acc.reverse, cs)
    else if c == '\\' then
      match cs with
      | [] => none
      | e :: cs' =>
        if e == '"' then parseStrBody fuel ('"' :: acc) cs'
        else if e == '\\' then parseStrBody fuel ('\\' :: acc) cs'
        else if e == '/' then parseStrBody fuel ('/' :: acc) cs'
        else if e == 'b' then parseStrBody fuel ('\x08' :: acc) cs'
        else if e == 'f' then parseStrBody fuel ('\x0c' :: acc) cs'
        else if e == 'n' then parseStrBody fuel ('\n' :: acc) cs'
        else if e == 'r' then parseStrBody fuel ('\r' :: acc) cs'
        else if e == 't' then parseStrBody fuel ('\t' :: acc) cs'
        else if e == 'u' then
          match cs' with
          | h1 :: h2 :: h3 :: h4 :: cs'' =>
            match hexVal h1, hexVal h2, hexVal h3, hexVal h4 with
            | some v1, some v2, some v3, some v4 =>
              let n := ((v1 * 16 + v2) * 16 + v3) * 16 + v4
              if 55296 ≤ n ∧ n ≤ 56319 then
                match cs'' with
                | b1 :: u1 :: g1 :: g2 :: g3 :: g4 :: cs3 =>
                  if b1 == '\\' && u1 == 'u' then
                    match hexVal g1, hexVal g2, hexVal g3, hexVal g4 with
                    | some w1, some w2, some w3, some w4 =>
                      let m := ((w1 * 16 + w2) * 16 + w3) * 16 + w4
                      if 56320 ≤ m ∧ m ≤ 57343 then
                        parseStrBody fuel
                          (Char.ofNat (65536 + (n - 55296) * 1024 + (m - 56320)) :: acc)
                          cs3
                      else
                        parseStrBody fuel (loneSurrogateStandIn :: acc) cs''
                    | _, _, _, _ =>
                      parseStrBody fuel (loneSurrogateStandIn :: acc) cs''
                  else
                    parseStrBody fuel (loneSurrogateStandIn :: acc) cs''
                | _ => parseStrBody fuel (loneSurrogateStandIn :: acc) cs''
              else if 56320 ≤ n ∧ n ≤ 57343 then
                parseStrBody fuel (loneSurrogateStandIn :: acc) cs''
              else
                parseStrBody fuel (Char.ofNat n :: acc) cs''
            | _, _, _, _ => none
          | _ => none
        else none
    else if c.toNat < 32 then none
    else parseStrBody fuel (c :: acc) cs

/-- Leading run of ASCII digits, and the rest. -/
def digitSpan (cs : List Char) : List Char × List Char :=
  (cs.takeWhile Char.isDigit, cs.dropWhile Char.isDigit)

/-- Integer part of a JSON number: `0`, or a nonzero digit followed by
digits (leading zeros are rejected, as in `json.loads`). -/
def parseIntPart (cs : List Char) : Option (List Char × List Char) :=
  match cs with
  | [] => none
  | c :: rest =>
    if c == '0' then some (['0'], rest)
    else if c.isDigit then some (digitSpan cs)
    else none

/-- Optional fractional part `.digits`. -/
def parseFracPart (cs : List Char) : Option (List Char × List Char) :=
  match cs with
  | c :: rest =>
    if c == '.' then
      let (ds, cs') := digitSpan rest
      if ds.isEmpty then none else some ('.' :: ds, cs')
    else some ([], cs)
  | [] => some ([], cs)

/-- Optional exponent part `e[+-]digits`. -/
def parseExpPart (cs : List Char) : Option (List Char × List Char) :=
  match cs with
  | c :: rest =>
    if c == 'e' || c == 'E' then
      let (sgn, rest1) :=
        match rest with
        | s :: r2 => if s == '+' || s == '-' then ([s], r2) else (([] : List Char), rest)
        | [] => (([] : List Char), rest)
      let (ds, cs') := digitSpan rest1
      if ds.isEmpty then none else some (c :: (sgn ++ ds), cs')
    else some ([], cs)
  | [] => some ([], cs)

/-- A JSON number, returned as its lexeme. -/
def parseNumLit (cs : List Char) : Option (String × List Char) :=
  let (sgn, cs1) :=
    match cs with
    | c :: rest => if c == '-' then (['-'], rest) else (([] : List Char), cs)
    | [] => (([] : List Char), cs)
  match parseIntPart cs1 with
  | none => none
  | some (ip, cs2) =>
    match parseFracPart cs2 with
    | none => none
    | some (fp, cs3) =>
      match parseExpPart cs3 with
      | none => none
      | some (ep, cs4) => some (String.mk (sgn ++ ip ++ fp ++ ep), cs4)

/-- Consume a literal keyword. -/
def dropLit (lit : List Char) (cs : List Char) : Option (List Char) :=
  if lit.isPrefixOf cs then some (cs.drop lit.length) else none

mutual

/-- One JSON value (fuel-indexed recursive descent). -/
def parseVal : Nat → List Char → Option (JVal × List Char)
  | 0, _ => none
  | fuel + 1, cs0 =>
    match skipWs cs0 with
    | [] => none
    | c :: rest =>
      if c == '"' then
        match parseStrBody (rest.length + 1) [] rest with
        | some (s, r) => some (JVal.str s, r)
        | none => none
      else if c == lbrace then
        match skipWs rest with
        | [] => none
        | d :: r1 =>
          if d == rbrace then some (JVal.obj [], r1)
          else parseObjItems fuel (d :: r1) []
      else if c == '[' then
        match skipWs rest with
        | [] => none
        | d :: r1 =>
          if d == ']' then some (JVal.arr [], r1)
          else parseArrItems fuel (d :: r1) []
      else if c == 't' then
        match dropLit "true".data (c :: rest) with
        | some r => some (JVal.boolean true, r)
        | none => none
      else if c == 'f' then
        match dropLit "false".data (c :: rest) with
        | some r => some (JVal.boolean false, r)
        | none => none
      else if c == 'n' then
        match dropLit "null".data (c :: rest) with
        | some r => some (JVal.null, r)
        | none => none
      else if c == 'N' then
        match dropLit "NaN".data (c :: rest) with
        | some r => some (JVal.num "NaN", r)
        | none => none
      else if c == 'I' then
        match dropLit "Infinity".data (c :: rest) with
        | some r => some (JVal.num "Infinity", r)
        | none => none
      else
        match dropLit "-Infinity".data (c :: rest) with
        | some r => some (JVal.num "-Infinity", r)
        | none =>
          match parseNumLit (c :: rest) with
          | some (lit, r) => some (JVal.num lit, r)
          | none => none

/-- Comma-separated `"key": value` pairs up to the closing brace; the
accumulator is reversed on exit, and a repeated key keeps its last value
(as `dict` construction does in CPython's json). -/
def parseObjItems : Nat → List Char → List (String × JVal) → Option (JVal × List Char)
  | 0, _, _ => none
  | fuel + 1, cs0, acc =>
    match skipWs cs0 with
    | [] => none
    | c :: rest =>
      if c == '"' then
        match parseStrBody (rest.length + 1) [] rest with
        | none => none
        | some (key, r1) =>
          match skipWs r1 with
          | [] => none
          | d :: r2 =>
            if d == ':' then
              match parseVal fuel r2 with
              | none => none
              | some (v, r3) =>
                match skipWs r3 with
                | [] => none
                | d2 :: r4 =>
                  if d2 == ',' then parseObjItems fuel r4 ((key, v) :: acc)
                  else if d2 == rbrace then some (JVal.obj ((key, v) :: acc).reverse, r4)
                  else none
            else none
      else none

/-- Comma-separated array elements up to the closing bracket. -/
def parseArrItems : Nat → List Char → List JVal → Option (JVal × List Char)
  | 0, _, _ => none
  | fuel + 1, cs0, acc =>
    match parseVal fuel cs0 with
    | none => none
    | some (v, r1) =>
      match skipWs r1 with
      | [] => none
      | d :: r2 =>
        if d == ',' then parseArrItems fuel r2 (v :: acc)
        else if d == ']' then some (JVal.arr (v :: acc).reverse, r2)
        else none

end

/-- Python `json.loads`: one JSON document covering the whole string. -/
def jsonLoads (s : String) : Option JVal :=
  match parseVal (2 * s.length + 16) s.data with
  | some (v, rest) => if (skipWs rest).isEmpty then some v else none
  | none => none

/-! ### news_summarizer.py — `NewsArticleSummarizer.summarize_article`

The backend call (`chain.invoke`) is the external capability; its outcome
for the call at hand is passed in as `invokeRes : Except String String`
(`Except.error e` models a raised exception with message `e`, which is what
both the custom-prompt and the built-in-prompt paths can do).  `today` and
`now` stand for the clock reads in `_get_today_mmdd` and
`datetime.now().isoformat()`. -/

/-- Lines 95–97 of `news_summarizer.py`:
`json_str = result.content[result.content.find('{') : result.content.rfind('}') + 1]`. -/
def extractJsonStr (content : String) : String :=
  pySlice content (pyFind content lbrace) (pyRFind content rbrace + 1)

/-- The fixed fallback payload substituted when JSON parsing fails. -/
def fallbackSummary : List (String × JVal) :=
  [("핵심_요약", JVal.str "요약 처리 중 오류가 발생했습니다."),
   ("주요_내용", JVal.str "기사 내용을 처리할 수 없습니다.")]

/-- Python `value.get(key, default)`: succeeds on a dict (last duplicate
key wins, as in a dict built by `json.loads`), raises `AttributeError` on
any non-dict value. -/
def pyObjGet (v : JVal) (key : String) (dflt : JVal) : Except String JVal :=
  match v with
  | JVal.obj kvs =>
    match (kvs.filter (fun p => p.1 == key)).getLast? with
    | some p => Except.ok p.2
    | none => Except.ok dflt
  | _ => Except.error "AttributeError: get"

/-- The result record of `summarize_article`.  Field names map the Korean
dict keys: `date` = 일자, `gsp` = GSP, `title` = 제목, `core` = 핵심_요약,
`detail` = 주요_내용, `media` = 매체, `srcFile` = 원본_파일,
`processedAt` = 처리_일시, `fnParseOk` = 파일명_파싱_성공, `status` = 상태. -/
structure SummaryD where
  date : String
  gsp : String
  title : String
  core : JVal
  detail : JVal
  media : String
  srcFile : String
  processedAt : String
  fnParseOk : Bool
  status : String

/-- The `try` block of `summarize_article` (lines 75–120): metadata
extraction, the backend call, the inner JSON-recovery block, the two
`.get` accesses and the merged success record.  `Except.error` is a raised
exception escaping the block. -/
def summarizeTry (invokeRes : Except String String) (today now filename : String) :
    Except String SummaryD :=
  let fi := parseFilename today filename
  match invokeRes with
  | Except.error e => Except.error e
  | Except.ok content =>
    let llm : JVal :=
      match jsonLoads (extractJsonStr content) with
      | some v => v
      | none => JVal.obj fallbackSummary
    match pyObjGet llm "핵심_요약" (JVal.str "요약 없음"),
          pyObjGet llm "주요_내용" (JVal.str "내용 없음") with
    | Except.ok core, Except.ok detail =>
      Except.ok
        { date := fi.date, gsp := fi.gsp, title := fi.title
          core := core, detail := detail, media := fi.media
          srcFile := filename, processedAt := now
          fnParseOk := fi.parseOk, status := "성공" }
    | Except.error e, _ => Except.error e
    | _, Except.error e => Except.error e

/-- `summarize_article` (lines 73–136): the `try` block above with the
`except` handler that re-runs metadata extraction and returns the error
record with 상태 = `"오류"` and the exception text in the 핵심_요약 slot. -/
def summarizeArticle (invokeRes : Except String String) (today now filename : String) :
    SummaryD :=
  match summarizeTry invokeRes today now filename with
  | Except.ok r => r
  | Except.error e =>
    let fi := parseFilename today filename
    { date := fi.date, gsp := fi.gsp, title := fi.title
      core := JVal.str ("요약 처리 중 오류가 발생했습니다: " ++ e)
      detail := JVal.str "기사 내용을 처리할 수 없습니다."
      media := fi.media, srcFile := filename, processedAt := now
      fnParseOk := fi.parseOk, status := "오류" }

/-! ### model_config.py — `ModelConfig.get_actual_model` -/

/-- `ModelConfig.get_actual_model`: `self.config.get('pwc_model', {})` is
passed in as the association list `mapping`; the lookup falls back to the
alias itself (`model_mapping.get(user_model, user_model)`). -/
def getActualModel (mapping : List (String × String)) (userModel : String) : String :=
  match mapping.lookup userModel with
  | some actual => actual
  | none => userModel

/-- The `pwc_model` table of the compiled-in default configuration. -/
def sampleMapping : List (String × String) :=
  [("openai", "azure.gpt-4o"),
   ("claude", "bedrock.anthropic.claude3-sonnet"),
   ("google", "vertex_ai.gemini-1.5-pro")]

/-! ### Spec-side JSON extraction (for the C6 refinement comparison) -/

/-- Bracket-depth scan from an opening brace: returns the consumed prefix
once the depth returns to zero. -/
def scanBalanced : List Char → Nat → List Char → Option String
  | [], _, _ => none
  | c :: cs, depth, acc =>
    if c == lbrace then scanBalanced cs (depth + 1) (c :: acc)
    else if c == rbrace then
      match depth with
      | 0 => none
      | 1 => some (String.mk ((c :: acc).reverse))
      | d + 2 => scanBalanced cs (d + 1) (c :: acc)
    else scanBalanced cs depth (c :: acc)

/-- Modelled from the spec: "Extract the first balanced top-level
brace-delimited substring from the raw text" with "an actual bracket-depth
scanner".  This is the spec's description of the extraction step, used to
compare against `extractJsonStr`, which embeds what the source actually
does. -/
def specFirstBalancedSpan (s : String) : Option String :=
  scanBalanced (s.data.dropWhile (fun c => !(c == lbrace))) 0 []

/-- Backend response consisting of two complete JSON objects in a row. -/
def twoObjs : String := "\x7b\"a\": 1\x7d\x7b\"b\": 2\x7d"

/-- Backend response that parses as a JSON object but lacks both expected
summary keys. -/
def c3missingKeys : String := "\x7b\"foo\": 1\x7d"

/-! ### app.py — `process_uploaded_files`

One uploaded document carries its name, its byte count and the outcome of
text extraction (`PyMuPDFLoader(...).load()` on the materialized bytes):
`Except.ok (full_text, page_count)` or `Except.error msg` for a raised
extraction error.  The oracles bundle the per-model external effects: the
`pwc_model` table, whether constructing the summarizer/LLM for a model
raises (`setup`), and the backend call outcome per (model, text)
(`invoke`). -/

structure UploadedFileD where
  name : String
  bytesLen : Nat
  extract : Except String (String × Nat)

structure Oracles where
  mapping : List (String × String)
  setup : String → Option String
  invoke : String → String → Except String String

/-- One value of the per-file `models` dict: either the summarizer result
(`entry = ok`) or the error stub written by the inner `except` branch
(`entry = error`, i.e. `{'error': …, 'status': 'failed', …}`); both carry
`user_model` and `actual_model`. -/
structure ModelRunD where
  entry : Except String SummaryD
  userModel : String
  actualModel : String

/-- One entry of the orchestrator's results list.  `topError = some e`
corresponds to the outer `except` branch's `'error': e, 'status': 'failed'`
keys; `fileSize`/`pages` are absent (`none`) in that branch. -/
structure FileResultD where
  filename : String
  topError : Option String
  fileSize : Option Nat
  pages : Option Nat
  models : List (String × ModelRunD)

/-- Body of the inner per-model `try` (lines 295–316 of app.py): a setup
exception is caught into the error stub; otherwise `summarize_article`
runs (and is itself total). -/
def modelEntry (os : Oracles) (today now name fullText m : String) : ModelRunD :=
  match os.setup m with
  | some e =>
    { entry := Except.error e, userModel := m
      actualModel := getActualModel os.mapping m }
  | none =>
    { entry := Except.ok (summarizeArticle (os.invoke m fullText) today now name)
      userModel := m
      actualModel := getActualModel os.mapping m }

/-- Processing of one uploaded file (lines 268–332 of app.py), producing
its results-list entry: extraction failure takes the outer `except` branch
(empty `models` dict); otherwise one `models` entry per selected model, in
selection order. -/
def processFile (os : Oracles) (today now : String) (models : List String)
    (uf : UploadedFileD) : FileResultD :=
  match uf.extract with
  | Except.error e =>
    { filename := uf.name, topError := some e, fileSize := none, pages := none
      models := [] }
  | Except.ok tp =>
    { filename := uf.name, topError := none, fileSize := some uf.bytesLen
      pages := some tp.2
      models := models.map (fun m => (m, modelEntry os today now uf.name tp.1 m)) }

/-- Whether an `Except` is a success. -/
def exceptIsOk {ε α : Type} : Except ε α → Bool
  | Except.ok _ => true
  | Except.error _ => false

/-- The document loop of `process_uploaded_files`, also tracking the set
of live temp files (by document index).  `NamedTemporaryFile(delete=False)`
creates the artifact before extraction; `os.unlink(tmp_file_path)` runs
after the per-model loop — but only on the path where extraction did not
raise, because an extraction exception jumps to the outer handler, which
never unlinks. -/
def runBatch (os : Oracles) (today now : String) (models : List String) :
    Nat → List Nat → List UploadedFileD → List FileResultD × List Nat
  | _, temps, [] => ([], temps)
  | i, temps, uf :: rest =>
    let temps1 := temps ++ [i]
    let temps2 := if exceptIsOk uf.extract then temps1.erase i else temps1
    let r := runBatch os today now models (i + 1) temps2 rest
    (processFile os today now models uf :: r.1, r.2)

/-- `process_uploaded_files(uploaded_files, models, …)`: the results list
in upload order, paired with the temp-file artifacts still alive when the
function returns. -/
def processUploadedFiles (os : Oracles) (today now : String) (models : List String)
    (files : List UploadedFileD) : List FileResultD × List Nat :=
  runBatch os today now models 0 [] files

/-! ### app.py — `display_html_report` / `generate_download_html`

The aggregator's data selection is embedded; HTML text around it is
elided.  A "row" is the (filename, model label, model data) triple behind
one rendered sub-block. -/

/-- The per-file filter (lines 444–448): keep model entries whose dict has
no `'status': 'failed'` and no `'error'` key — exactly the non-stub
entries. -/
def successfulEntries (ms : List (String × ModelRunD)) : List (String × ModelRunD) :=
  ms.filter (fun p => exceptIsOk p.2.entry)

/-- Lines 437–453: drop failed files, restrict each remaining file to its
successful model entries, and drop files with none left. -/
def filterSuccessful (results : List FileResultD) : List FileResultD :=
  ((results.filter (fun r => r.topError.isNone)).map
    (fun r => { r with models := successfulEntries r.models })).filter
    (fun r => !r.models.isEmpty)

/-- Python string comparison: lexicographic on code points. -/
def listCharLt : List Char → List Char → Bool
  | [], [] => false
  | [], _ :: _ => true
  | _ :: _, [] => false
  | a :: as, b :: bs =>
    if a.toNat < b.toNat then true
    else if b.toNat < a.toNat then false
    else listCharLt as bs

/-- Python `a < b` on strings. -/
def strLtB (a b : String) : Bool := listCharLt a.data b.data

/-- Python `a <= b` on strings. -/
def strLeB (a b : String) : Bool := !(strLtB b a)

/-- The ordering proposition behind `strLeB`. -/
def aliasLe (a b : String) : Prop := strLeB a b = true

/-- Insertion step of a stable insertion sort under `strLeB`. -/
def orderedInsertAlias (x : String) : List String → List String
  | [] => [x]
  | y :: ys => if strLeB x y then x :: y :: ys else y :: orderedInsertAlias x ys

/-- `sorted(...)` for alias lists (any correct ascending sort agrees with
Python's `sorted` on the distinct elements fed to it). -/
def sortAliases : List String → List String
  | [] => []
  | x :: xs => orderedInsertAlias x (sortAliases xs)

/-- Line 459: `models_used = sorted(list(models_used))` where the set
collected the successful aliases of non-failed files. -/
def modelsUsed (results : List FileResultD) : List String :=
  sortAliases ((((results.filter (fun r => r.topError.isNone)).map
    (fun r => (successfulEntries r.models).map Prod.fst)).flatten).dedup)

/-- Python `result['models'][model]`: a missing key raises `KeyError`. -/
def pyDictIndex (kvs : List (String × ModelRunD)) (k : String) :
    Except String ModelRunD :=
  match kvs.lookup k with
  | some v => Except.ok v
  | none => Except.error ("KeyError: " ++ k)

/-- The inner `for model in models_used` loop of `display_html_report`
(lines 503–532): one sub-block per model of `models_used`, looked up via
`result['models'][model]`; the first missing key raises `KeyError` and
aborts the rendering. -/
def rowsForFile (r : FileResultD) : List String →
    Except String (List (String × String × ModelRunD))
  | [] => Except.ok []
  | m :: ms =>
    match pyDictIndex r.models m with
    | Except.error e => Except.error e
    | Except.ok v =>
      match rowsForFile r ms with
      | Except.error e => Except.error e
      | Except.ok rest => Except.ok ((r.filename, m, v) :: rest)

/-- The outer `for result in successful_results` loop of
`display_html_report` in multi-model mode. -/
def rowsMulti (mu : List String) : List FileResultD →
    Except String (List (String × String × ModelRunD))
  | [] => Except.ok []
  | r :: rs =>
    match rowsForFile r mu with
    | Except.error e => Except.error e
    | Except.ok l =>
      match rowsMulti mu rs with
      | Except.error e => Except.error e
      | Except.ok rest => Except.ok (l ++ rest)

/-- The single-model branch of `display_html_report` (lines 537–571): one
block per file for `models_used[0]`. -/
def rowsSingle (m : String) : List FileResultD →
    Except String (List (String × String × ModelRunD))
  | [] => Except.ok []
  | r :: rs =>
    match pyDictIndex r.models m with
    | Except.error e => Except.error e
    | Except.ok v =>
      match rowsSingle m rs with
      | Except.error e => Except.error e
      | Except.ok rest => Except.ok ((r.filename, m, v) :: rest)

/-- The sub-block selection of `display_html_report`. -/
def displayRows (succ : List FileResultD) (mu : List String) :
    Except String (List (String × String × ModelRunD)) :=
  if mu.length > 1 then rowsMulti mu succ
  else rowsSingle (mu.getD 0 "") succ

/-- The inner model loop of `generate_download_html` (lines 620–647) — the
source duplicates the display loop rather than sharing it, so the
embedding does too. -/
def dlRowsForFile (r : FileResultD) : List String →
    Except String (List (String × String × ModelRunD))
  | [] => Except.ok []
  | m :: ms =>
    match pyDictIndex r.models m with
    | Except.error e => Except.error e
    | Except.ok v =>
      match dlRowsForFile r ms with
      | Except.error e => Except.error e
      | Except.ok rest => Except.ok ((r.filename, m, v) :: rest)

/-- The outer file loop of `generate_download_html` in multi-model mode. -/
def dlRowsMulti (mu : List String) : List FileResultD →
    Except String (List (String × String × ModelRunD))
  | [] => Except.ok []
  | r :: rs =>
    match dlRowsForFile r mu with
    | Except.error e => Except.error e
    | Except.ok l =>
      match dlRowsMulti mu rs with
      | Except.error e => Except.error e
      | Except.ok rest => Except.ok (l ++ rest)

/-- The single-model branch of `generate_download_html` (lines 648–678). -/
def dlRowsSingle (m : String) : List FileResultD →
    Except String (List (String × String × ModelRunD))
  | [] => Except.ok []
  | r :: rs =>
    match pyDictIndex r.models m with
    | Except.error e => Except.error e
    | Except.ok v =>
      match dlRowsSingle m rs with
      | Except.error e => Except.error e
      | Except.ok rest => Except.ok ((r.filename, m, v) :: rest)

/-- The sub-block selection of `generate_download_html`, driven by the
caller-supplied `is_multi_model` flag. -/
def downloadRows (succ : List FileResultD) (mu : List String) (isMulti : Bool) :
    Except String (List (String × String × ModelRunD)) :=
  if isMulti then dlRowsMulti mu succ
  else dlRowsSingle (mu.getD 0 "") succ

/-! ### Concrete fixtures for witnesses and counterexamples -/

/-- A concrete successful summary record. -/
def sampleSummary : SummaryD :=
  { date := "06/02", gsp := "현대차", title := "제목"
    core := JVal.str "S", detail := JVal.str "D", media := "더벨"
    srcFile := "더벨_0602_현대차_제목.pdf", processedAt := "T"
    fnParseOk := true, status := "성공" }

/-- A successful model run labelled `m`. -/
def okRun (m : String) : ModelRunD :=
  { entry := Except.ok sampleSummary, userModel := m, actualModel := m }

/-- Two files whose successful model sets are disjoint: `f1` succeeded
only with `alpha`, `f2` only with `beta` (e.g. each model's backend failed
on the other file). -/
def hetResults : List FileResultD :=
  [{ filename := "f1.pdf", topError := none, fileSize := some 10, pages := some 1
     models := [("alpha", okRun "alpha")] },
   { filename := "f2.pdf", topError := none, fileSize := some 10, pages := some 1
     models := [("beta", okRun "beta")] }]

/-- Two files that both succeeded with both models. -/
def homResults : List FileResultD :=
  [{ filename := "f1.pdf", topError := none, fileSize := some 10, pages := some 1
     models := [("beta", okRun "beta"), ("alpha", okRun "alpha")] },
   { filename := "f2.pdf", topError := none, fileSize := some 10, pages := some 1
     models := [("beta", okRun "beta"), ("alpha", okRun "alpha")] }]

/-- Benign oracles: every setup succeeds and every call returns plain
text (which exercises the JSON fallback, not an error). -/
def benignOracles : Oracles :=
  { mapping := sampleMapping
    setup := fun _ => none
    invoke := fun _ _ => Except.ok "x" }

/-- A document whose text extraction raises. -/
def corruptFile : UploadedFileD :=
  { name := "corrupt.pdf", bytesLen := 10
    extract := Except.error "cannot open broken document" }

/-- A document whose text extraction succeeds. -/
def goodFile : UploadedFileD :=
  { name := "더벨_0602_현대차_제목.pdf", bytesLen := 20
    extract := Except.ok ("기사 본문", 1) }

/-- Oracles where constructing the LLM raises for every model (the
per-model failure path of the orchestrator). -/
def failSetupOracles : Oracles :=
  { mapping := sampleMapping
    setup := fun _ => some "auth error"
    invoke := fun _ _ => Except.ok "x" }

end NewsClip

namespace NewsClip

/-! ### Theorems: Metadata Extractor (C4, C5, C10) -/

/-- C4: for every filename whose stem splits on `_` into at least four
segments with a 4-digit second segment, `parse_filename` succeeds and
returns outlet = first segment, date = the digits formatted `"MM/DD"`,
group tag = third segment, and headline = the remaining segments
re-joined with `_`. -/
theorem c4_parse_success (today filename : String)
    (h4 : (pySplitU (pathStem filename)).length ≥ 4)
    (hlen : ((pySplitU (pathStem filename)).getD 1 "").length = 4)
    (hdig : ((pySplitU (pathStem filename)).getD 1 "").data.all Char.isDigit = true) :
    parseFilename today filename =
      { media := (pySplitU (pathStem filename)).getD 0 ""
        date := String.mk (((pySplitU (pathStem filename)).getD 1 "").data.take 2)
                  ++ "/"
                  ++ String.mk (((pySplitU (pathStem filename)).getD 1 "").data.drop 2)
        gsp := (pySplitU (pathStem filename)).getD 2 ""
        title := joinUnderscore ((pySplitU (pathStem filename)).drop 3)
        origFilename := filename
        parseOk := true } := by
  unfold parseFilename
  rw [if_pos h4]
  unfold formatDate
  rw [if_pos ⟨hlen, hdig⟩]

/-- C4 witness: the spec's own example filename. -/
theorem c4_parse_success_witness :
    parseFilename "10/12" "더벨_0602_현대차_제목.pdf" =
      { media := "더벨", date := "06/02", gsp := "현대차", title := "제목"
        origFilename := "더벨_0602_현대차_제목.pdf", parseOk := true } := by
  have h := c4_parse_success "10/12" "더벨_0602_현대차_제목.pdf"
    (by decide) (by decide) (by decide)
  rw [h]
  decide

/-- C5 counterexample: `"더벨_06a2_현대차_제목.pdf"` has four segments but a
non-numeric second segment, so by the claim it should yield the fallback
record with `parse_succeeded = false` and headline = whole stem; the code
instead reports success with headline `"제목"` (only the date falls back). -/
theorem c5_counterexample :
    ((pySplitU (pathStem badDateFile)).length ≥ 4)
    ∧ ¬ (((pySplitU (pathStem badDateFile)).getD 1 "").data.all Char.isDigit = true)
    ∧ (parseFilename "10/12" badDateFile).parseOk = true
    ∧ (parseFilename "10/12" badDateFile).title = "제목" := by
  decide

/-- C5 (amended): `parse_filename` never raises, and the code's shape
check is only the segment count.  A filename with fewer than four
`_`-separated stem segments produces the full fallback record
(headline = stem, date = today, group tag = `"기타"`, `parseOk = false`).
With four or more segments — whatever the second segment looks like —
`parse_filename` reports success, with outlet, group tag and headline
taken from the segments; a malformed date segment can affect only the
date field, which falls back to today inside `_format_date` whenever
`str.isdigit` fails — in particular when the segment's length is not 4 or
it contains an ASCII character other than `0`–`9` (the cases where the
embedded ASCII digit predicate provably agrees with Python's). -/
theorem c5_fallback_amended (today filename : String) :
    ((pySplitU (pathStem filename)).length < 4 →
      parseFilename today filename =
        { media := "", date := today, gsp := "기타", title := pathStem filename
          origFilename := filename, parseOk := false })
    ∧ ((pySplitU (pathStem filename)).length ≥ 4 →
        (parseFilename today filename).parseOk = true
        ∧ (parseFilename today filename).media
            = (pySplitU (pathStem filename)).getD 0 ""
        ∧ (parseFilename today filename).gsp
            = (pySplitU (pathStem filename)).getD 2 ""
        ∧ (parseFilename today filename).title
            = joinUnderscore ((pySplitU (pathStem filename)).drop 3)
        ∧ (parseFilename today filename).origFilename = filename)
    ∧ ((pySplitU (pathStem filename)).length ≥ 4 →
        (((pySplitU (pathStem filename)).getD 1 "").length ≠ 4
          ∨ ∃ c ∈ ((pySplitU (pathStem filename)).getD 1 "").data,
              c.toNat < 128 ∧ ¬ c.isDigit = true) →
        (parseFilename today filename).date = today) := by
  refine ⟨?_, ?_, ?_⟩
  · intro hlt
    unfold parseFilename
    rw [if_neg (by omega)]
  · intro h4
    unfold parseFilename
    rw [if_pos h4]
    exact ⟨rfl, rfl, rfl, rfl, rfl⟩
  · intro h4 hbad
    have hfalse : ¬ ((((pySplitU (pathStem filename)).getD 1 "").length = 4)
        ∧ ((pySplitU (pathStem filename)).getD 1 "").data.all Char.isDigit = true) := by
      intro hcond
      rcases hbad with hlen | ⟨c, hc, _, hnd⟩
      · exact hlen hcond.1
      · exact hnd (List.all_eq_true.mp hcond.2 c hc)
    unfold parseFilename
    rw [if_pos h4]
    unfold formatDate
    rw [if_neg hfalse]

/-- C5 amended witness: a one-segment filename takes the full fallback,
and the malformed-date filename (`"06a2"` contains the ASCII non-digit
`'a'`) still parses successfully, with only the date falling back. -/
theorem c5_fallback_amended_witness :
    parseFilename "10/12" "잘못된파일명.pdf" =
      { media := "", date := "10/12", gsp := "기타", title := "잘못된파일명"
        origFilename := "잘못된파일명.pdf", parseOk := false }
    ∧ (parseFilename "10/12" badDateFile).parseOk = true
    ∧ (parseFilename "10/12" badDateFile).date = "10/12" := by
  refine ⟨?_, ?_, ?_⟩
  · have h := (c5_fallback_amended "10/12" "잘못된파일명.pdf").1 (by decide)
    rw [h]
    decide
  · exact ((c5_fallback_amended "10/12" badDateFile).2.1 (by decide)).1
  · exact (c5_fallback_amended "10/12" badDateFile).2.2 (by decide)
      (Or.inr ⟨'a', by decide, by decide, by decide⟩)

/-- C10: `parse_filename` always copies its input into the
original-filename field unchanged, and in every fallback case (the only
fallback in the code is the failed shape check; the exception handler is
unreachable) the outlet field is present and equal to the empty string. -/
theorem c10_orig_filename_and_outlet (today filename : String) :
    (parseFilename today filename).origFilename = filename
    ∧ ((parseFilename today filename).parseOk = false →
        (parseFilename today filename).media = "") := by
  unfold parseFilename
  by_cases h : (pySplitU (pathStem filename)).length ≥ 4
  · rw [if_pos h]
    exact ⟨rfl, by intro hb; cases hb⟩
  · rw [if_neg h]
    exact ⟨rfl, fun _ => rfl⟩

/-- C10 witness: both conjuncts at concrete filenames. -/
theorem c10_orig_filename_and_outlet_witness :
    (parseFilename "10/12" "더벨_0602_현대차_제목.pdf").origFilename
        = "더벨_0602_현대차_제목.pdf"
    ∧ (parseFilename "10/12" "잘못된파일명.pdf").media = "" := by
  refine ⟨(c10_orig_filename_and_outlet "10/12" _).1, ?_⟩
  exact (c10_orig_filename_and_outlet "10/12" "잘못된파일명.pdf").2 (by decide)

/-! ### Theorems: Summarization Client (C2, C3, C6) -/

/-- C2: `summarize_article` is total.  When the backend call raises (or
yields an error) with message `e`, the exception is caught, metadata
extraction from the filename is still performed (the date/GSP/title/outlet
fields come from `parse_filename`), and the returned record has
상태 = `"오류"` with the error message populated into the result; nothing
propagates to the caller (the embedding returns a plain `SummaryD`, not an
`Except`). -/
theorem c2_backend_error_caught (e today now filename : String) :
    summarizeArticle (Except.error e) today now filename =
      { date := (parseFilename today filename).date
        gsp := (parseFilename today filename).gsp
        title := (parseFilename today filename).title
        core := JVal.str ("요약 처리 중 오류가 발생했습니다: " ++ e)
        detail := JVal.str "기사 내용을 처리할 수 없습니다."
        media := (parseFilename today filename).media
        srcFile := filename
        processedAt := now
        fnParseOk := (parseFilename today filename).parseOk
        status := "오류" } := rfl

/-- C3 counterexample: a backend response that parses as a JSON object
but is missing both expected keys.  The claim counts "missing keys" among
the parse failures that must yield the fixed processing-failed payload;
the code instead parses the object successfully and substitutes the
per-key `.get` defaults `"요약 없음"` / `"내용 없음"`, which are not the
fixed payload's messages. -/
theorem c3_counterexample :
    jsonLoads (extractJsonStr c3missingKeys) = some (JVal.obj [("foo", JVal.num "1")])
    ∧ (summarizeArticle (Except.ok c3missingKeys) "10/12" "T"
        "더벨_0602_현대차_제목.pdf").core = JVal.str "요약 없음"
    ∧ (summarizeArticle (Except.ok c3missingKeys) "10/12" "T"
        "더벨_0602_현대차_제목.pdf").detail = JVal.str "내용 없음"
    ∧ ¬ ("요약 없음" = "요약 처리 중 오류가 발생했습니다.")
    ∧ ¬ ("내용 없음" = "기사 내용을 처리할 수 없습니다.") :=
  ⟨rfl, rfl, rfl, by decide, by decide⟩

/-- C3 (amended): only when the extracted brace span fails to parse as
JSON (no braces found, malformed JSON — `jsonLoads` of the slice is
`none`) is the fixed fallback payload substituted, with both summary
fields carrying the human-readable processing-failed messages; a response
that parses as an object but lacks the expected keys instead gets each
missing field's `.get` default (`핵심_요약` → `"요약 없음"`,
`주요_내용` → `"내용 없음"`).  In both cases nothing is raised past that
point and the result's 상태 stays `"성공"`. -/
theorem c3_parse_failure_fallback_amended (content today now filename : String) :
    (jsonLoads (extractJsonStr content) = none →
      (summarizeArticle (Except.ok content) today now filename).core
          = JVal.str "요약 처리 중 오류가 발생했습니다."
      ∧ (summarizeArticle (Except.ok content) today now filename).detail
          = JVal.str "기사 내용을 처리할 수 없습니다."
      ∧ (summarizeArticle (Except.ok content) today now filename).status = "성공")
    ∧ (∀ kvs, jsonLoads (extractJsonStr content) = some (JVal.obj kvs) →
        (kvs.filter (fun p => p.1 == "핵심_요약")).getLast? = none →
        (kvs.filter (fun p => p.1 == "주요_내용")).getLast? = none →
        (summarizeArticle (Except.ok content) today now filename).core
            = JVal.str "요약 없음"
        ∧ (summarizeArticle (Except.ok content) today now filename).detail
            = JVal.str "내용 없음"
        ∧ (summarizeArticle (Except.ok content) today now filename).status = "성공") := by
  constructor
  · intro h
    simp only [summarizeArticle, summarizeTry, h]
    exact ⟨rfl, rfl, rfl⟩
  · intro kvs hsome h1 h2
    simp [summarizeArticle, summarizeTry, hsome, pyObjGet, h1, h2]

/-- C3 amended witness: a brace-free response takes the fixed payload; an
object response missing both keys takes the `.get` defaults. -/
theorem c3_parse_failure_fallback_amended_witness :
    (summarizeArticle (Except.ok "요약을 생성할 수 없습니다") "10/12" "T"
        "더벨_0602_현대차_제목.pdf").core
      = JVal.str "요약 처리 중 오류가 발생했습니다."
    ∧ (summarizeArticle (Except.ok c3missingKeys) "10/12" "T"
        "더벨_0602_현대차_제목.pdf").core = JVal.str "요약 없음" := by
  refine ⟨?_, ?_⟩
  · exact ((c3_parse_failure_fallback_amended "요약을 생성할 수 없습니다" "10/12" "T"
      "더벨_0602_현대차_제목.pdf").1 rfl).1
  · exact ((c3_parse_failure_fallback_amended c3missingKeys "10/12" "T"
      "더벨_0602_현대차_제목.pdf").2 [("foo", JVal.num "1")] rfl rfl rfl).1

/-- C6 counterexample: for a response made of a well-formed JSON object
followed by a second object, the first balanced top-level brace span is
just the first object, but the source's extraction
(`content.find('{')` … `content.rfind('}') + 1`) returns the whole
two-object string — so the extraction step does not select the first
balanced span. -/
theorem c6_counterexample :
    specFirstBalancedSpan twoObjs = some "\x7b\"a\": 1\x7d"
    ∧ extractJsonStr twoObjs = twoObjs
    ∧ ¬ extractJsonStr twoObjs = "\x7b\"a\": 1\x7d" := by
  refine ⟨rfl, rfl, by decide⟩

/-- Helper: a full Python slice `s[0:len(s)]` is the string itself. -/
theorem pySlice_all (s : String) : pySlice s 0 (s.length : Int) = s := by
  unfold pySlice pySliceIdx
  rw [if_neg (by omega), if_neg (by omega)]
  simp only [Int.toNat_zero, Nat.zero_min, Nat.min_self, List.drop_zero, Nat.sub_zero,
    Int.toNat_natCast]
  show String.mk (s.data.take s.data.length) = s
  rw [List.take_length]

/-- C6 (amended): the JSON-extraction step selects the substring from the
first `{` to the last `}` of the response (a greedy span), not the first
balanced one: whenever the response is a string starting with `{` followed
by one ending in `}` — e.g. a well-formed object followed by a second
object — the whole concatenation is what gets parsed. -/
theorem c6_greedy_span_amended (a b : String)
    (ha : a.data.head? = some lbrace) (hb : b.data.getLast? = some rbrace) :
    extractJsonStr (a ++ b) = a ++ b := by
  obtain ⟨as, ha2⟩ : ∃ as, a.data = lbrace :: as := by
    cases h : a.data with
    | nil => rw [h] at ha; cases ha
    | cons x xs =>
      rw [h] at ha
      simp only [List.head?_cons, Option.some.injEq] at ha
      exact ⟨xs, by rw [ha]⟩
  obtain ⟨bs, hb2⟩ : ∃ bs, b.data.reverse = rbrace :: bs := by
    have hh : b.data.reverse.head? = some rbrace := by
      rw [List.head?_reverse]; exact hb
    cases h : b.data.reverse with
    | nil => rw [h] at hh; cases hh
    | cons x xs =>
      rw [h] at hh
      simp only [List.head?_cons, Option.some.injEq] at hh
      exact ⟨xs, by rw [hh]⟩
  have hdata : (a ++ b).data = lbrace :: (as ++ b.data) := by
    show a.data ++ b.data = _
    rw [ha2, List.cons_append]
  have hrev : (a ++ b).data.reverse = rbrace :: (bs ++ (as.reverse ++ [lbrace])) := by
    show (a.data ++ b.data).reverse = _
    rw [List.reverse_append, hb2, ha2, List.reverse_cons, List.cons_append]
  have hfind : pyFind (a ++ b) lbrace = 0 := by
    unfold pyFind
    rw [hdata, List.findIdx?_cons]
    simp
  have hrfind : pyRFind (a ++ b) rbrace = (((a ++ b).length - 1 : Nat) : Int) := by
    unfold pyRFind
    rw [hrev, List.findIdx?_cons]
    simp
  have hlen : 1 ≤ (a ++ b).length := by
    show 1 ≤ (a ++ b).data.length
    rw [hdata]; simp
  have h1 : (((a ++ b).length - 1 : Nat) : Int) + 1 = ((a ++ b).length : Int) := by
    omega
  unfold extractJsonStr
  rw [hfind, hrfind, h1, pySlice_all]

/-- C6 amended witness: two tiny objects in a row. -/
theorem c6_greedy_span_amended_witness :
    extractJsonStr ("\x7bX\x7d" ++ "\x7bY\x7d") = "\x7bX\x7d" ++ "\x7bY\x7d" :=
  c6_greedy_span_amended "\x7bX\x7d" "\x7bY\x7d" rfl rfl

/-! ### Theorems: Model Registry (C7) -/

/-- C7: `get_actual_model` returns the mapped backend identifier when the
alias is a key of the lookup table and returns the alias unchanged when it
is not; being a total function, it never raises for an unknown alias. -/
theorem c7_get_actual_model (mapping : List (String × String)) (userModel : String) :
    (∀ v, mapping.lookup userModel = some v → getActualModel mapping userModel = v)
    ∧ (mapping.lookup userModel = none → getActualModel mapping userModel = userModel) := by
  unfold getActualModel
  constructor
  · intro v hv
    rw [hv]
  · intro hn
    rw [hn]

/-- C7 witness: a mapped alias resolves through the default table and an
unknown alias passes through unchanged. -/
theorem c7_get_actual_model_witness :
    getActualModel sampleMapping "openai" = "azure.gpt-4o"
    ∧ getActualModel sampleMapping "my-new-model" = "my-new-model" :=
  ⟨(c7_get_actual_model sampleMapping "openai").1 "azure.gpt-4o" rfl,
   (c7_get_actual_model sampleMapping "my-new-model").2 rfl⟩

/-! ### Theorems: Fan-Out Orchestrator (C1, C9) -/

/-- Helper: the results list returned by the document loop is the pointwise
image of `processFile`, independently of the index and temp-file state. -/
theorem runBatch_fst (os : Oracles) (today now : String) (models : List String) :
    ∀ (files : List UploadedFileD) (i : Nat) (temps : List Nat),
      (runBatch os today now models i temps files).1
        = files.map (processFile os today now models) := by
  intro files
  induction files with
  | nil => intro i temps; rfl
  | cons uf rest ih =>
    intro i temps
    simp only [runBatch, List.map_cons]
    rw [ih]

/-- C1: for every batch of `N` documents and `M` models, the orchestrator
returns exactly `N` entries in upload order — each entry is a function of
its own document alone (so failures elsewhere leave it unaffected); a
document whose text extraction fails yields an entry with the top-level
error and an empty per-model mapping while the map structure keeps
processing the later documents; a document whose extraction succeeds gets
one entry per selected model; and the entry for model `m` depends only on
the oracles' behavior at `m`, so a failure in one model call cannot change
any other model's entry. -/
theorem c1_orchestrator_batch (os : Oracles) (today now : String)
    (models : List String) (files : List UploadedFileD) :
    ((processUploadedFiles os today now models files).1
        = files.map (processFile os today now models))
    ∧ (∀ uf e, uf.extract = Except.error e →
        (processFile os today now models uf).topError = some e
        ∧ (processFile os today now models uf).models = [])
    ∧ (∀ uf tp, uf.extract = Except.ok tp →
        (processFile os today now models uf).models
          = models.map (fun m => (m, modelEntry os today now uf.name tp.1 m)))
    ∧ (∀ (os' : Oracles) (m0 : String), os.mapping = os'.mapping →
        (∀ m, m ≠ m0 → os.setup m = os'.setup m ∧ os.invoke m = os'.invoke m) →
        ∀ m, m ≠ m0 → ∀ name text,
          modelEntry os today now name text m = modelEntry os' today now name text m) := by
  refine ⟨runBatch_fst os today now models files 0 [], ?_, ?_, ?_⟩
  · intro uf e h
    simp [processFile, h]
  · intro uf tp h
    simp only [processFile, h]
  · intro os' m0 hmap hagree m hm name text
    unfold modelEntry
    rw [hmap, (hagree m hm).1, (hagree m hm).2]

/-- C1 witness: a two-document batch where the second document's
extraction raises; the results list is still the upload-ordered image and
the failed document's entry carries the error with no model entries. -/
theorem c1_orchestrator_batch_witness :
    ((processUploadedFiles benignOracles "10/12" "T" ["openai", "claude"]
        [goodFile, corruptFile]).1
      = [goodFile, corruptFile].map
          (processFile benignOracles "10/12" "T" ["openai", "claude"]))
    ∧ (processFile benignOracles "10/12" "T" ["openai", "claude"] corruptFile).topError
        = some "cannot open broken document"
    ∧ (processFile benignOracles "10/12" "T" ["openai", "claude"] corruptFile).models
        = [] := by
  have h := c1_orchestrator_batch benignOracles "10/12" "T" ["openai", "claude"]
    [goodFile, corruptFile]
  have h2 := h.2.1 corruptFile "cannot open broken document" rfl
  exact ⟨h.1, h2.1, h2.2⟩

/-- C9 (bug evidence): in a batch whose first document's extraction
raises, that document's temp file is still alive when the orchestrator
returns (`os.unlink` sits on the success path only; the exception jumps
past it to the outer handler), while the successfully processed second
document's temp file was released — so the release is not performed on the
failure path, contrary to the claim.  Success-only batches and per-model
failures (inner `except`) do release everything. -/
theorem c9_temp_file_leak :
    (processUploadedFiles benignOracles "10/12" "T" ["openai"]
        [corruptFile, goodFile]).2 = [0]
    ∧ (processUploadedFiles benignOracles "10/12" "T" ["openai"] [goodFile]).2 = []
    ∧ (processUploadedFiles failSetupOracles "10/12" "T" ["openai"] [goodFile]).2 = []
    ∧ (processUploadedFiles benignOracles "10/12" "T" ["openai"]
        [corruptFile, goodFile]).1.length = 2 :=
  ⟨rfl, rfl, rfl, rfl⟩

/-! ### Theorems: Report Aggregator (C8) -/

/-- Lexicographic `<` on code-point lists is asymmetric. -/
theorem listCharLt_asymm : ∀ (a b : List Char),
    listCharLt a b = true → listCharLt b a = false := by
  intro a
  induction a with
  | nil =>
    intro b h
    cases b with
    | nil => exact absurd h (by simp [listCharLt])
    | cons y ys => simp [listCharLt]
  | cons x xs ih =>
    intro b h
    cases b with
    | nil => simp [listCharLt] at h
    | cons y ys =>
      by_cases h1 : x.toNat < y.toNat
      · have h2 : ¬ y.toNat < x.toNat := by omega
        simp [listCharLt, h1, h2]
      · by_cases h2 : y.toNat < x.toNat
        · simp [listCharLt, h1, h2] at h
        · simp [listCharLt, h1, h2] at h ⊢
          exact ih ys h

/-- Co-transitivity: if `a < c` then for any `b`, `a < b` or `b < c`. -/
theorem listCharLt_cotrans : ∀ (a c b : List Char),
    listCharLt a c = true → listCharLt a b = true ∨ listCharLt b c = true := by
  intro a
  induction a with
  | nil =>
    intro c b h
    cases c with
    | nil => simp [listCharLt] at h
    | cons y ys =>
      cases b with
      | nil => right; simp [listCharLt]
      | cons z bs => left; simp [listCharLt]
  | cons x xs ih =>
    intro c b h
    cases c with
    | nil => simp [listCharLt] at h
    | cons y ys =>
      cases b with
      | nil => right; simp [listCharLt]
      | cons z bs =>
        by_cases h1 : x.toNat < y.toNat
        · by_cases h2 : x.toNat < z.toNat
          · left; simp [listCharLt, h2]
          · right
            have h3 : z.toNat < y.toNat := by omega
            simp [listCharLt, h3]
        · by_cases h2 : y.toNat < x.toNat
          · simp [listCharLt, h1, h2] at h
          · simp [listCharLt, h1, h2] at h
            by_cases h3 : x.toNat < z.toNat
            · left; simp [listCharLt, h3]
            · by_cases h4 : z.toNat < x.toNat
              · right
                have h5 : z.toNat < y.toNat := by omega
                simp [listCharLt, h5]
              · have hxz : ¬ z.toNat < y.toNat := by omega
                have hzx : ¬ y.toNat < z.toNat := by omega
                rcases ih ys bs h with h6 | h6
                · left; simp [listCharLt, h3, h4, h6]
                · right; simp [listCharLt, hxz, hzx, h6]

/-- `strLeB` is total. -/
theorem strLeB_total (a b : String) : strLeB a b = true ∨ strLeB b a = true := by
  unfold strLeB strLtB
  cases hv : listCharLt b.data a.data with
  | false => left; rfl
  | true => right; rw [listCharLt_asymm _ _ hv]; rfl

/-- `strLeB` is transitive. -/
theorem strLeB_trans (a b c : String) (hab : strLeB a b = true)
    (hbc : strLeB b c = true) : strLeB a c = true := by
  unfold strLeB strLtB at hab hbc ⊢
  rw [Bool.not_eq_true'] at hab hbc ⊢
  cases hca : listCharLt c.data a.data with
  | false => rfl
  | true =>
    rcases listCharLt_cotrans c.data a.data b.data hca with h1 | h1
    · rw [hbc] at h1; cases h1
    · rw [hab] at h1; cases h1

/-- Membership after insertion. -/
theorem mem_orderedInsertAlias {z x : String} :
    ∀ {l : List String}, z ∈ orderedInsertAlias x l → z = x ∨ z ∈ l := by
  intro l
  induction l with
  | nil =>
    intro h
    simp [orderedInsertAlias] at h
    exact Or.inl h
  | cons y ys ih =>
    intro h
    by_cases hc : strLeB x y = true
    · simp only [orderedInsertAlias] at h
      rw [if_pos hc] at h
      rcases List.mem_cons.mp h with h1 | h2
      · exact Or.inl h1
      · exact Or.inr h2
    · simp only [orderedInsertAlias] at h
      rw [if_neg hc] at h
      rcases List.mem_cons.mp h with h1 | h2
      · exact Or.inr (List.mem_cons.mpr (Or.inl h1))
      · rcases ih h2 with h3 | h3
        · exact Or.inl h3
        · exact Or.inr (List.mem_cons.mpr (Or.inr h3))

/-- Insertion preserves sortedness. -/
theorem sorted_orderedInsertAlias (x : String) :
    ∀ l, List.Sorted aliasLe l → List.Sorted aliasLe (orderedInsertAlias x l) := by
  intro l
  induction l with
  | nil => intro _; simp [orderedInsertAlias]
  | cons y ys ih =>
    intro hs
    rw [List.sorted_cons] at hs
    by_cases hc : strLeB x y = true
    · simp only [orderedInsertAlias]
      rw [if_pos hc, List.sorted_cons]
      constructor
      · intro b hb
        rcases List.mem_cons.mp hb with h1 | h2
        · rw [h1]; exact hc
        · exact strLeB_trans x y b hc (hs.1 b h2)
      · rw [List.sorted_cons]; exact hs
    · simp only [orderedInsertAlias]
      rw [if_neg hc, List.sorted_cons]
      constructor
      · intro b hb
        rcases mem_orderedInsertAlias hb with h1 | h2
        · rw [h1]
          exact (strLeB_total x y).resolve_left hc
        · exact hs.1 b h2
      · exact ih hs.2

/-- The alias sort is sorted. -/
theorem sorted_sortAliases (l : List String) :
    List.Sorted aliasLe (sortAliases l) := by
  induction l with
  | nil => simp [sortAliases]
  | cons x xs ih => exact sorted_orderedInsertAlias x (sortAliases xs) ih

/-- C8 counterexample: with two filtered files whose successful model sets
are disjoint (`f1` only `alpha`, `f2` only `beta`), more than one distinct
alias appears, yet multi-model rendering does not produce one sub-block per
(file, model) pair — it aborts with `KeyError: beta` on the first file. -/
theorem c8_counterexample :
    modelsUsed hetResults = ["alpha", "beta"]
    ∧ displayRows (filterSuccessful hetResults) (modelsUsed hetResults)
        = Except.error "KeyError: beta" := ⟨rfl, rfl⟩

/-- Helper: under full key coverage, the per-file model loop succeeds and
labels its blocks with exactly the `models_used` sequence. -/
theorem rowsForFile_ok (r : FileResultD) :
    ∀ (mu : List String), (∀ m ∈ mu, (r.models.lookup m).isSome) →
      ∃ l, rowsForFile r mu = Except.ok l
        ∧ l.map (fun x => (x.1, x.2.1)) = mu.map (fun m => (r.filename, m)) := by
  intro mu
  induction mu with
  | nil => intro _; exact ⟨[], rfl, rfl⟩
  | cons m ms ih =>
    intro hcov
    obtain ⟨v, hv⟩ : ∃ v, r.models.lookup m = some v := by
      have hm := hcov m (List.mem_cons_self m ms)
      cases h : r.models.lookup m with
      | none => rw [h] at hm; cases hm
      | some v => exact ⟨v, rfl⟩
    obtain ⟨l, hl, hlab⟩ := ih (fun m' hm' => hcov m' (List.mem_cons_of_mem _ hm'))
    refine ⟨(r.filename, m, v) :: l, ?_, ?_⟩
    · simp only [rowsForFile, pyDictIndex]
      rw [hv, hl]
    · simp only [List.map_cons, hlab]

/-- Helper: under full key coverage, multi-model rendering succeeds and the
rendered (file, model) labels are exactly one per pair, file-major. -/
theorem rowsMulti_ok (mu : List String) :
    ∀ (succ : List FileResultD),
      (∀ r ∈ succ, ∀ m ∈ mu, (r.models.lookup m).isSome) →
      ∃ l, rowsMulti mu succ = Except.ok l
        ∧ l.map (fun x => (x.1, x.2.1))
            = succ.flatMap (fun r => mu.map (fun m => (r.filename, m))) := by
  intro succ
  induction succ with
  | nil => intro _; exact ⟨[], rfl, rfl⟩
  | cons r rs ih =>
    intro hcov
    obtain ⟨l1, h1, hl1⟩ := rowsForFile_ok r mu (hcov r (List.mem_cons_self r rs))
    obtain ⟨l2, h2, hl2⟩ := ih (fun r' hr' => hcov r' (List.mem_cons_of_mem _ hr'))
    refine ⟨l1 ++ l2, ?_, ?_⟩
    · simp only [rowsMulti]
      rw [h1, h2]
    · simp only [List.map_append, hl1, hl2, List.flatMap_cons]

/-- Helper: the download loop is extensionally the display loop (the
source duplicates the code). -/
theorem dlRowsForFile_eq (r : FileResultD) :
    ∀ mu, dlRowsForFile r mu = rowsForFile r mu := by
  intro mu
  induction mu with
  | nil => rfl
  | cons m ms ih =>
    simp only [dlRowsForFile, rowsForFile]
    rw [ih]

/-- Helper: multi-model download rendering equals display rendering. -/
theorem dlRowsMulti_eq (mu : List String) :
    ∀ succ, dlRowsMulti mu succ = rowsMulti mu succ := by
  intro succ
  induction succ with
  | nil => rfl
  | cons r rs ih =>
    simp only [dlRowsMulti, rowsMulti]
    rw [ih, dlRowsForFile_eq]

/-- C8 (amended): in multi-model mode, and provided every filtered file
has an entry for every used alias (otherwise rendering aborts with a
`KeyError`, per the counterexample), the aggregator renders one
model-labelled sub-block per (file, model) pair, file-major with the
models of each file in the sorted order of the alias set (not selection
order), and the interactive view and the downloadable export produce the
identical block sequence. -/
theorem c8_multi_model_report_amended (results : List FileResultD)
    (hmulti : (modelsUsed results).length > 1)
    (hcov : ∀ r ∈ filterSuccessful results, ∀ m ∈ modelsUsed results,
      (r.models.lookup m).isSome) :
    ∃ rows,
      displayRows (filterSuccessful results) (modelsUsed results) = Except.ok rows
      ∧ downloadRows (filterSuccessful results) (modelsUsed results) true
          = Except.ok rows
      ∧ rows.map (fun x => (x.1, x.2.1))
          = (filterSuccessful results).flatMap
              (fun r => (modelsUsed results).map (fun m => (r.filename, m)))
      ∧ List.Sorted aliasLe (modelsUsed results) := by
  obtain ⟨rows, hr, hlab⟩ :=
    rowsMulti_ok (modelsUsed results) (filterSuccessful results) hcov
  refine ⟨rows, ?_, ?_, hlab, sorted_sortAliases _⟩
  · unfold displayRows
    rw [if_pos hmulti]
    exact hr
  · unfold downloadRows
    rw [if_pos rfl, dlRowsMulti_eq]
    exact hr

/-- C8 amended witness: two files, both successful with `beta` and
`alpha`; rendering succeeds, the two views agree, and the model order is
the sorted alias set. -/
theorem c8_multi_model_report_amended_witness :
    ∃ rows,
      displayRows (filterSuccessful homResults) (modelsUsed homResults)
          = Except.ok rows
      ∧ downloadRows (filterSuccessful homResults) (modelsUsed homResults) true
          = Except.ok rows
      ∧ List.Sorted aliasLe (modelsUsed homResults) := by
  obtain ⟨rows, h1, h2, _, h4⟩ :=
    c8_multi_model_report_amended homResults (by decide) (by decide)
  exact ⟨rows, h1, h2, h4⟩

end NewsClip
